import Mathlib

/-!
Shallow embedding of the `MIDI_lib` codec: the event model and serializers
of `midifile.py` and the sequential decoder of `midiparser.py`.
Byte strings are modelled as `List Nat`, Python exceptions as `Except MidiErr`,
and the file object of the parser as an explicit `PFile` state record.
-/

/-- Exception taxonomy of `midi_exceptions.py` plus the builtin exceptions
the parser can raise (`ValueError`, `struct.error`). -/
inductive MidiErr where
  | midiError (data : Nat) (msg : String)
  | dataLengthError
  | statusError (status : Nat)
  | channelError (channel : Nat)
  | dataError
  | valueError (msg : String)
  | structError
deriving Repr, DecidableEq

/-- `Except.okB` is `true` exactly on `Except.ok` results. -/
def Except.okB {ε α : Type} : Except ε α → Bool
  | .ok _ => true
  | .error _ => false

instance {ε α : Type} [DecidableEq ε] [DecidableEq α] : DecidableEq (Except ε α) := fun x y =>
  match x, y with
  | .ok a, .ok b => if h : a = b then .isTrue (by rw [h]) else .isFalse (by simp [h])
  | .error a, .error b => if h : a = b then .isTrue (by rw [h]) else .isFalse (by simp [h])
  | .ok _, .error _ => .isFalse (by simp)
  | .error _, .ok _ => .isFalse (by simp)

/-- The `StatusBytes.meta` dictionary of `midifile.py`, as key/value pairs. -/
def StatusBytes.metaTable : List (Nat × String) :=
  [(0, "Sequence Number"), (1, "Text"), (2, "Copyright"), (3, "Sequence / Track Name"),
   (4, "Instrument Name"), (5, "Lyric"), (6, "Marker"), (7, "Cue Point"), (8, "Program Name"),
   (9, "Device Name"), (32, "MIDI Channel Prefix"), (33, "MIDI Port"), (47, "End of Track"),
   (81, "Tempo"), (84, "SMPTE Offset"), (88, "Time Signature"), (89, "Key Signature"),
   (127, "Sequencer Specific Event")]

/-- The `StatusBytes.midi` dictionary of `midifile.py`, as key/value pairs. -/
def StatusBytes.midiTable : List (Nat × String) :=
  [(128, "Note off"), (144, "Note on"), (160, "Key pressure"), (176, "Control change"),
   (192, "Program change"), (208, "Channel pressure"), (224, "Pitch wheel change")]

/-- The `StatusBytes.sysex` dictionary keys of `midifile.py`. -/
def StatusBytes.sysexKeys : List Nat := [240, 247]

/-- Keys of `StatusBytes.midi`. -/
def StatusBytes.midiKeys : List Nat := StatusBytes.midiTable.map (fun p => p.1)

/-- Keys of `StatusBytes.meta`. -/
def StatusBytes.metaKeys : List Nat := StatusBytes.metaTable.map (fun p => p.1)

/-- Dictionary lookup `StatusBytes.midi[k]`, `none` in place of a `KeyError`. -/
def StatusBytes.midiLookup (k : Nat) : Option String :=
  (StatusBytes.midiTable.find? (fun p => p.1 == k)).map (fun p => p.2)

/-- The event object graph: `MidiEvent`, `SysExEvent` and `MetaEvent` of
`midifile.py` (a `MetaEvent` always stores status 255). -/
inductive MEvent where
  | midi (delta_time : Nat) (status : Nat) (data : List Nat)
  | sysex (delta_time : Nat) (status : Nat) (data : List Nat)
  | meta (delta_time : Nat) (event_type : Nat) (data : List Nat)
deriving Repr, DecidableEq

/-- The `status` attribute (a `MetaEvent` is constructed with status 255). -/
def MEvent.status : MEvent → Nat
  | .midi _ s _ => s
  | .sysex _ s _ => s
  | .meta _ _ _ => 255

/-- The `delta_time` attribute. -/
def MEvent.delta_time : MEvent → Nat
  | .midi dt _ _ => dt
  | .sysex dt _ _ => dt
  | .meta dt _ _ => dt

/-- The `data` attribute. -/
def MEvent.data : MEvent → List Nat
  | .midi _ _ d => d
  | .sysex _ _ d => d
  | .meta _ _ d => d

/-- `Event.variable_len` of `midifile.py`: emits `n & 0x7f`, then at most two
further continuation bytes (the `for cnt in range(2)` loop), reversed. -/
def Event.variable_len (time_or_len : Nat) : List Nat :=
  let n0 := time_or_len
  let acc1 : List Nat := [n0 % 128]
  let n1 := n0 / 128
  let acc2 := if 0 < n1 then acc1 ++ [n1 % 128 + 128] else acc1
  let n2 := n1 / 128
  let acc3 := if 0 < n2 then acc2 ++ [n2 % 128 + 128] else acc2
  acc3.reverse

/-- `to_hex` of each event class: the flattened `self.event` byte list. -/
def MEvent.to_hex : MEvent → List Nat
  | .midi dt s d => Event.variable_len dt ++ [s] ++ d
  | .sysex dt s d => Event.variable_len dt ++ [s] ++ Event.variable_len d.length ++ d
  | .meta dt et d => Event.variable_len dt ++ [255] ++ [et] ++ Event.variable_len d.length ++ d

/-- The `get_delta_time` property: the VLQ bytes of the delta time. -/
def MEvent.get_delta_time (e : MEvent) : List Nat := Event.variable_len e.delta_time

/-- The `get_event_type` property of `MidiEvent`: `StatusBytes.midi[status & 240]`. -/
def MEvent.get_event_type (e : MEvent) : Option String :=
  StatusBytes.midiLookup (e.status &&& 240)

/-- `MidiEvent.__init__`: channel, status, data-length and data checks, then the
delta-time check of `Event.__init__`; stores `status + channel_number`. -/
def MidiEvent.mk' (delta_time status channel_number : Nat) (data : List Nat) :
    Except MidiErr MEvent :=
  if ¬ channel_number ≤ 15 then .error (.channelError channel_number)
  else if ¬ status ∈ StatusBytes.midiKeys then .error (.statusError status)
  else if (status ∈ [192, 223] ∧ data.length ≠ 1) ∨ (¬ status ∈ [192, 223] ∧ data.length ≠ 2) then
    .error .dataLengthError
  else if data.any (fun b => 127 < b) then .error .dataError
  else if ¬ delta_time ≤ 4294967167 then .error (.midiError delta_time " Wrong delta time value")
  else .ok (.midi delta_time (status + channel_number) data)

/-- `SysExEvent.__init__`: status check, then the delta-time check. -/
def SysExEvent.mk' (delta_time status : Nat) (data : List Nat) : Except MidiErr MEvent :=
  if ¬ status ∈ StatusBytes.sysexKeys then .error (.statusError status)
  else if ¬ delta_time ≤ 4294967167 then .error (.midiError delta_time " Wrong delta time value")
  else .ok (.sysex delta_time status data)

/-- `MetaEvent.__init__`: event-type check, then the delta-time check. -/
def MetaEvent.mk' (event_type delta_time : Nat) (data : List Nat) : Except MidiErr MEvent :=
  if ¬ event_type ∈ StatusBytes.metaKeys then
    .error (.midiError event_type "Wrong event type for Meta event")
  else if ¬ delta_time ≤ 4294967167 then .error (.midiError delta_time " Wrong delta time value")
  else .ok (.meta delta_time event_type data)

/-- The `Header` object graph of `midifile.py` (the stored `mthd` and `length`
fields are the constants `b'MThd'` and 6). -/
structure Header where
  file_format : Nat
  ntracks : Nat
  ppqn : Nat
deriving Repr, DecidableEq

/-- `Header.__init__` validation. -/
def Header.mk' (file_format ntracks ppqn : Nat) : Except MidiErr Header :=
  if ¬ file_format ∈ [0, 1, 2] then .error (.midiError file_format "Wrong file format")
  else if file_format = 0 ∧ ntracks ≠ 1 then
    .error (.midiError file_format "Format 0 has only 1 track")
  else if 15 ≤ ntracks then
    .error (.midiError file_format "16 tracks is maximum for SMF( 1 track for each channel)")
  else .ok ⟨file_format, ntracks, ppqn⟩

/-- `pack('>H', n)`: two big-endian bytes. -/
def packH (n : Nat) : List Nat := [n / 256 % 256, n % 256]

/-- `pack('>L', n)`: four big-endian bytes. -/
def packL (n : Nat) : List Nat := [n / 16777216 % 256, n / 65536 % 256, n / 256 % 256, n % 256]

/-- The bytes of `b'MThd'`. -/
def mthdBytes : List Nat := [77, 84, 104, 100]

/-- The bytes of `b'MTrk'`. -/
def mtrkBytes : List Nat := [77, 84, 114, 107]

/-- `Header.to_hex`: `b'MThd'` + `pack('>LHHH', 6, format, ntracks, ppqn)`. -/
def Header.to_hex (h : Header) : List Nat :=
  mthdBytes ++ packL 6 ++ packH h.file_format ++ packH h.ntracks ++ packH h.ppqn

/-- The `Track` object graph of `midifile.py`. -/
structure Track where
  events : List MEvent
  running_status_mode : Bool
deriving Repr, DecidableEq

/-- The loop body of `Track.running_status` over `self.events[1:]`, with the
`current_status` accumulator threaded explicitly. -/
def Track.runningStatusTail (current_status : Nat) : List MEvent → List Nat
  | [] => []
  | e :: rest =>
    (if current_status = e.status ∧ e.status < 240 then
      e.get_delta_time ++ e.to_hex.drop (e.get_delta_time.length + 1)
    else e.to_hex) ++ Track.runningStatusTail e.status rest

/-- `Track.running_status`: first event verbatim, then the accumulator loop. -/
def Track.running_status (events : List MEvent) : List Nat :=
  match events with
  | [] => []
  | e :: rest => e.to_hex ++ Track.runningStatusTail e.status rest

/-- The byte string computed by `Track.length_and_bytes`. -/
def Track.event_bytes (t : Track) : List Nat :=
  if t.running_status_mode then Track.running_status t.events
  else (t.events.map MEvent.to_hex).flatten

/-- `Track.__init__` validation (empty event list is rejected). -/
def Track.mk' (events : List MEvent) (running_status_mode : Bool) : Except MidiErr Track :=
  if events = [] then .error (.midiError 0 "Events list is empty")
  else .ok ⟨events, running_status_mode⟩

/-- `Track.to_hex`: `b'MTrk'` + `pack('>L', length)` + event bytes. -/
def Track.to_hex (t : Track) : List Nat :=
  mtrkBytes ++ packL t.event_bytes.length ++ t.event_bytes

/-- The `MidiFormat` object graph of `midifile.py`. -/
structure MidiFormat where
  header : Header
  tracks : List Track
deriving Repr, DecidableEq

/-- `MidiFormat.__init__` validation (empty track list is rejected). -/
def MidiFormat.mk' (header : Header) (tracks : List Track) : Except MidiErr MidiFormat :=
  if tracks = [] then .error (.midiError 0 "Tracks list is empty")
  else .ok ⟨header, tracks⟩

/-- `MidiFormat.to_hex`: header bytes then each track's bytes in order. -/
def MidiFormat.to_hex (m : MidiFormat) : List Nat :=
  m.header.to_hex ++ (m.tracks.map Track.to_hex).flatten

/-- The parser's file object: the full byte content, the read position, and
whether `close()` has been called. -/
structure PFile where
  data : List Nat
  pos : Nat
  closed : Bool
deriving Repr, DecidableEq

/-- `file.read(n)`: up to `n` bytes from the current position (fewer at EOF). -/
def PFile.read (f : PFile) (n : Nat) : List Nat × PFile :=
  let bs := (f.data.drop f.pos).take n
  (bs, { f with pos := f.pos + bs.length })

/-- `file.seek(-1, 1)`: move the position one byte back. -/
def PFile.seekBack1 (f : PFile) : PFile := { f with pos := f.pos - 1 }

/-- `file.close()`. -/
def PFile.close (f : PFile) : PFile := { f with closed := true }

/-- `MidiParser.__variable_len`: fold the 7-bit groups MSB-first. -/
def MidiParser.variable_len (array : List Nat) : Nat :=
  array.foldl (fun output n => output * 128 + n % 128) 0

/-- The byte-collecting loop of `MidiParser.__read_var_len`: at most four
one-byte reads, stopping after a byte ≤ 127; `unpack('>B', b'')` at EOF is a
`struct.error`. -/
def MidiParser.readVarLenBytes : Nat → List Nat → PFile → Except MidiErr (List Nat) × PFile
  | 0, acc, f => (.ok acc, f)
  | fuel + 1, acc, f =>
    match f.read 1 with
    | ([b], f1) =>
      if b ≤ 127 then (.ok (acc ++ [b]), f1)
      else MidiParser.readVarLenBytes fuel (acc ++ [b]) f1
    | (_, f1) => (.error .structError, f1)

/-- `MidiParser.__read_var_len`. -/
def MidiParser.read_var_len (f : PFile) : Except MidiErr Nat × PFile :=
  match MidiParser.readVarLenBytes 4 [] f with
  | (.ok bs, f1) => (.ok (MidiParser.variable_len bs), f1)
  | (.error e, f1) => (.error e, f1)

/-- `MidiParser.__read_midi_event_data`: one data byte for statuses 192..223,
two otherwise. -/
def MidiParser.read_midi_event_data (status : Nat) (f : PFile) : List Nat × PFile :=
  let len := if 192 ≤ status ∧ status ≤ 223 then 1 else 2
  f.read len

/-- `MidiParser.__read_sysex_event_data`. -/
def MidiParser.read_sysex_event_data (f : PFile) : Except MidiErr (Nat × List Nat) × PFile :=
  match MidiParser.read_var_len f with
  | (.ok len, f1) =>
    let (d, f2) := f1.read len
    (.ok (len, d), f2)
  | (.error e, f1) => (.error e, f1)

/-- `MidiParser.__read_meta_event_data`. -/
def MidiParser.read_meta_event_data (f : PFile) :
    Except MidiErr (Nat × Nat × List Nat) × PFile :=
  match f.read 1 with
  | ([event_type], f1) =>
    match MidiParser.read_var_len f1 with
    | (.ok len, f2) =>
      let (d, f3) := f2.read len
      (.ok (event_type, len, d), f3)
    | (.error e, f2) => (.error e, f2)
  | (_, f1) => (.error .structError, f1)

/-- `MidiParser.__read_event`: delta time, status byte, then the
running-status branch or the dispatch on 0xF0/0xF7/0xFF. -/
def MidiParser.read_event (current_event : MEvent) (f : PFile) :
    Except MidiErr MEvent × PFile :=
  match MidiParser.read_var_len f with
  | (.error e, f1) => (.error e, f1)
  | (.ok delta_time, f1) =>
    match f1.read 1 with
    | ([status], f2) =>
      if (current_event.status &&& 240) ∈ StatusBytes.midiKeys ∧ status < 128 then
        let (d, f3) := MidiParser.read_midi_event_data current_event.status f2
        let data := [status] ++ d.dropLast
        let f4 := f3.seekBack1
        let chn := current_event.status &&& 15
        (MidiEvent.mk' delta_time (current_event.status - chn) chn data, f4)
      else if ¬ status ∈ [240, 247, 255] then
        let (data, f3) := MidiParser.read_midi_event_data status f2
        let chn := status &&& 15
        (MidiEvent.mk' delta_time (status - chn) chn data, f3)
      else if status = 255 then
        match MidiParser.read_meta_event_data f2 with
        | (.ok (event_type, _len, data), f3) => (MetaEvent.mk' event_type delta_time data, f3)
        | (.error e, f3) => (.error e, f3)
      else
        match MidiParser.read_sysex_event_data f2 with
        | (.ok (_len, data), f3) => (SysExEvent.mk' delta_time status data, f3)
        | (.error e, f3) => (.error e, f3)
    | (_, f2) => (.error .structError, f2)

/-- The End-of-Track test of `MidiParser.__read_track`:
`isinstance(event, MetaEvent) and event.event_type == 47`. -/
def MidiParser.isEOT : MEvent → Bool
  | .meta _ 47 _ => true
  | _ => false

/-- The sentinel `MetaEvent(1, 0, 'Just Event')` passed to the first
`__read_event` call (data is the `ord` codes of the string). -/
def MidiParser.sentinel : MEvent :=
  .meta 0 1 [74, 117, 115, 116, 32, 69, 118, 101, 110, 116]

/-- The event loop of `MidiParser.__read_track`, fuelled: each iteration
advances the position, so `data.length + 2` fuel always suffices. -/
def MidiParser.readEvents : Nat → MEvent → List MEvent → PFile →
    Except MidiErr (List MEvent) × PFile
  | 0, _, _, f => (.error .structError, f)
  | fuel + 1, current, acc, f =>
    if MidiParser.isEOT current then (.ok acc, f)
    else
      match MidiParser.read_event current f with
      | (.ok e, f1) => MidiParser.readEvents fuel e (acc ++ [e]) f1
      | (.error err, f1) => (.error err, f1)

/-- `MidiParser.__read_track`. -/
def MidiParser.read_track (f : PFile) : Except MidiErr Track × PFile :=
  let (hdr, f1) := f.read 8
  if hdr ≠ [] then
    match MidiParser.read_event MidiParser.sentinel f1 with
    | (.ok event, f2) =>
      match MidiParser.readEvents (f2.data.length + 2) event [event] f2 with
      | (.ok events, f3) =>
        match Track.mk' events true with
        | .ok t => (.ok t, f3)
        | .error e => (.error e, f3)
      | (.error e, f3) => (.error e, f3)
    | (.error e, f2) => (.error e, f2)
  else (.error (.valueError "Wrong format of file"), f1)

/-- `MidiParser.__read_header`: reads 8 bytes, PROCEEDS when the magic does
not equal `b'MThd'`, and raises `ValueError` when it does (or at EOF). -/
def MidiParser.read_header (f : PFile) : Except MidiErr Header × PFile :=
  let (mthd, f1) := f.read 8
  if mthd ≠ [] ∧ mthd.take 4 ≠ mthdBytes then
    match f1.read 6 with
    | ([b1, b2, b3, b4, b5, b6], f2) =>
      (Header.mk' (b1 * 256 + b2) (b3 * 256 + b4) (b5 * 256 + b6), f2)
    | (_, f2) => (.error .structError, f2)
  else (.error (.valueError "Wrong format of file"), f1)

/-- The track loop of `MidiParser.read_all` over `range(header.ntracks)`. -/
def MidiParser.readTracks : Nat → List Track → PFile → Except MidiErr (List Track) × PFile
  | 0, acc, f => (.ok acc, f)
  | n + 1, acc, f =>
    match MidiParser.read_track f with
    | (.ok t, f1) => MidiParser.readTracks n (acc ++ [t]) f1
    | (.error e, f1) => (.error e, f1)

/-- `MidiParser.read_all`: header, tracks, `MidiFormat`, then `close()` —
the close happens only on the success path. -/
def MidiParser.read_all (f : PFile) : Except MidiErr MidiFormat × PFile :=
  match MidiParser.read_header f with
  | (.ok header, f1) =>
    match MidiParser.readTracks header.ntracks [] f1 with
    | (.ok tracks, f2) =>
      match MidiFormat.mk' header tracks with
      | .ok m => (.ok m, f2.close)
      | .error e => (.error e, f2)
    | (.error e, f2) => (.error e, f2)
  | (.error e, f1) => (.error e, f1)

/-- An event is valid when some event constructor of `midifile.py` accepts
its arguments and produces it. -/
def ValidEvent (e : MEvent) : Prop :=
  (∃ dt s ch d, MidiEvent.mk' dt s ch d = .ok e) ∨
  (∃ dt s d, SysExEvent.mk' dt s d = .ok e) ∨
  (∃ et dt d, MetaEvent.mk' et dt d = .ok e)

/-- The running-status tail as the specification words it: a channel-voice
event whose wire status equals the accumulator and is below 240 is emitted as
`VLQ(delta_time) ++ payload` with the status byte omitted; every other event
(in particular every SysEx and Meta event) is emitted in full; after every
event the accumulator becomes that event's status. -/
def specRunningStatusTail (accumulator : Nat) : List MEvent → List Nat
  | [] => []
  | e :: rest =>
    (match e with
     | .midi dt s payload =>
       if accumulator = s ∧ s < 240 then Event.variable_len dt ++ payload
       else MEvent.to_hex (.midi dt s payload)
     | _ => e.to_hex) ++ specRunningStatusTail e.status rest

/-- A well-formed serialized SMF prologue: `MThd`, length 6, format 1,
one track, 96 PPQN. -/
def c2ValidFileBytes : List Nat := [77, 84, 104, 100, 0, 0, 0, 6, 0, 1, 0, 1, 0, 96]

/-- The same prologue with the four magic bytes corrupted to `XXXX`. -/
def c2CorruptMagicBytes : List Nat := [88, 88, 88, 88, 0, 0, 0, 6, 0, 1, 0, 1, 0, 96]

/-- The serialization of a valid container: `Header(0, 1, 96)` and one track
holding only the End-of-Track meta event. -/
def c6ValidSmfBytes : List Nat :=
  (MidiFormat.mk ⟨0, 1, 96⟩ [Track.mk [.meta 0 47 []] true]).to_hex

/-- A stream the parser accepts end to end: corrupted magic, then the header
fields, a track prologue and a lone End-of-Track event. -/
def c6CorruptMagicSmfBytes : List Nat :=
  [88, 88, 88, 88, 0, 0, 0, 6, 0, 1, 0, 1, 0, 96] ++
    [77, 84, 114, 107, 0, 0, 0, 4] ++ [0, 255, 47, 0]

/-- C3: the VLQ encoder emits at most three bytes (its continuation loop runs
only twice), so 0x200000 = 2097152 is encoded as `[0x80, 0x80, 0x00]`, which
the decoder reads back as 0: the claimed 1-to-4-byte round trip on
[0, 0x0FFFFFFF] fails at 2097152. -/
theorem c3_vlq_truncates_at_three_bytes :
    Event.variable_len 2097152 = [128, 128, 0] ∧
    MidiParser.variable_len (Event.variable_len 2097152) = 0 ∧
    (MidiParser.read_var_len ⟨Event.variable_len 2097152, 0, false⟩).1 = .ok 0 := by
  decide

/-- C5: `MidiEvent.__init__` tests `status in [192, 223]` (list membership,
not the range 192..223), so Channel Pressure (208) is required to carry two
data bytes and a one-byte payload raises `DataLengthError`, while the parser's
`__read_midi_event_data` reads exactly one data byte for status 208. -/
theorem c5_channel_pressure_data_length :
    MidiEvent.mk' 0 208 0 [64] = .error .dataLengthError ∧
    MidiEvent.mk' 0 208 0 [64, 0] = .ok (.midi 0 208 [64, 0]) ∧
    (MidiParser.read_midi_event_data 208 ⟨[64, 0, 99], 0, false⟩).1 = [64] := by
  decide

/-- C2: the magic check of `__read_header` has inverted polarity: a stream
that begins with the correct `MThd` magic raises `ValueError`, while a stream
whose magic is corrupted is parsed into a `Header`. -/
theorem c2_header_magic_polarity_inverted :
    (MidiParser.read_header ⟨c2ValidFileBytes, 0, false⟩).1 =
      .error (.valueError "Wrong format of file") ∧
    (MidiParser.read_header ⟨c2CorruptMagicBytes, 0, false⟩).1 = .ok ⟨1, 1, 96⟩ := by
  decide

/-- C6: `read_all` closes its stream only on the success path: on the valid
serialized container it aborts (inverted magic check) leaving the stream open,
while on a stream it does accept, the stream ends up closed. -/
theorem c6_stream_not_closed_on_error :
    ((MidiParser.read_all ⟨c6ValidSmfBytes, 0, false⟩).1.okB = false ∧
     (MidiParser.read_all ⟨c6ValidSmfBytes, 0, false⟩).2.closed = false) ∧
    ((MidiParser.read_all ⟨c6CorruptMagicSmfBytes, 0, false⟩).1.okB = true ∧
     (MidiParser.read_all ⟨c6CorruptMagicSmfBytes, 0, false⟩).2.closed = true) := by
  decide

/-- C7 counterexample: on four consecutive continuation bytes
`__read_var_len` stops reading and silently returns the accumulated value 0
instead of raising a format error. -/
theorem c7_counterexample_four_continuation_bytes_ok :
    (MidiParser.read_var_len ⟨[128, 128, 128, 128, 7], 0, false⟩).1 = .ok 0 := by
  decide

/-- C8 counterexample: a `MidiEvent` with delta time 0x10000000 = 268435456,
one above the largest 4-byte VLQ value, is accepted by construction. -/
theorem c8_counterexample_large_delta_accepted :
    MidiEvent.mk' 268435456 144 0 [60, 127] = .ok (.midi 268435456 144 [60, 127]) := by
  decide

/-- Inversion of a successful `MidiEvent` construction. -/
theorem midi_mk_shape (dt s ch : Nat) (d : List Nat) (e : MEvent)
    (h : MidiEvent.mk' dt s ch d = .ok e) :
    e = .midi dt (s + ch) d ∧ ch ≤ 15 ∧ s ∈ StatusBytes.midiKeys := by
  unfold MidiEvent.mk' at h
  split at h
  next => exact Except.noConfusion h
  next hch =>
  split at h
  next => exact Except.noConfusion h
  next hs =>
  split at h
  next => exact Except.noConfusion h
  next =>
  split at h
  next => exact Except.noConfusion h
  next =>
  split at h
  next => exact Except.noConfusion h
  next =>
  refine ⟨?_, not_not.mp hch, not_not.mp hs⟩
  injection h with h
  exact h.symm

/-- Inversion of a successful `SysExEvent` construction. -/
theorem sysex_mk_shape (dt s : Nat) (d : List Nat) (e : MEvent)
    (h : SysExEvent.mk' dt s d = .ok e) :
    e = .sysex dt s d ∧ s ∈ StatusBytes.sysexKeys := by
  unfold SysExEvent.mk' at h
  split at h
  next => exact Except.noConfusion h
  next hs =>
  split at h
  next => exact Except.noConfusion h
  next =>
  refine ⟨?_, not_not.mp hs⟩
  injection h with h
  exact h.symm

/-- Inversion of a successful `MetaEvent` construction. -/
theorem meta_mk_shape (et dt : Nat) (d : List Nat) (e : MEvent)
    (h : MetaEvent.mk' et dt d = .ok e) :
    e = .meta dt et d ∧ et ∈ StatusBytes.metaKeys := by
  unfold MetaEvent.mk' at h
  split at h
  next => exact Except.noConfusion h
  next het =>
  split at h
  next => exact Except.noConfusion h
  next =>
  refine ⟨?_, not_not.mp het⟩
  injection h with h
  exact h.symm

/-- A valid SysEx event carries status 240 or 247, in particular ≥ 240. -/
theorem ValidEvent.sysex_status {dt s : Nat} {d : List Nat}
    (h : ValidEvent (.sysex dt s d)) : 240 ≤ s := by
  rcases h with ⟨dt', s', ch', d', hm⟩ | ⟨dt', s', d', hm⟩ | ⟨et', dt', d', hm⟩
  · exact absurd (midi_mk_shape dt' s' ch' d' _ hm).1 (by simp)
  · obtain ⟨hsh, hmem⟩ := sysex_mk_shape dt' s' d' _ hm
    injection hsh with h1 h2 h3
    simp only [StatusBytes.sysexKeys, List.mem_cons, List.not_mem_nil, or_false,
      List.mem_singleton] at hmem
    omega
  · exact absurd (meta_mk_shape et' dt' d' _ hm).1 (by simp)

/-- Dropping the VLQ-plus-status prefix of a serialized event leaves the
payload. -/
theorem drop_vlq_status (l : List Nat) (s : Nat) (d : List Nat) :
    (l ++ [s] ++ d).drop (l.length + 1) = d := by
  have h : l ++ [s] ++ d = (l ++ [s]) ++ d := by simp
  have h2 : l.length + 1 = (l ++ [s]).length := by simp
  rw [h, h2, List.drop_left]

/-- On lists of valid events the byte-slicing loop of `Track.running_status`
agrees with the specification-level description, for every accumulator. -/
theorem runningStatusTail_eq_spec (es : List MEvent) :
    ∀ cur : Nat, (∀ x ∈ es, ValidEvent x) →
      Track.runningStatusTail cur es = specRunningStatusTail cur es := by
  induction es with
  | nil => intro cur _; rfl
  | cons e rest ih =>
    intro cur hv
    have he : ValidEvent e := hv e (List.mem_cons_self e rest)
    have hrest : ∀ x ∈ rest, ValidEvent x := fun x hx => hv x (List.mem_cons_of_mem e hx)
    have htail := ih e.status hrest
    cases e with
    | midi dt s d =>
      simp only [Track.runningStatusTail, specRunningStatusTail, MEvent.status] at htail ⊢
      rw [htail]
      by_cases hc : cur = s ∧ s < 240
      · rw [if_pos hc, if_pos hc]
        simp only [MEvent.get_delta_time, MEvent.to_hex, MEvent.delta_time]
        rw [drop_vlq_status]
      · rw [if_neg hc, if_neg hc]
    | sysex dt s d =>
      have hs : 240 ≤ s := ValidEvent.sysex_status he
      simp only [Track.runningStatusTail, specRunningStatusTail, MEvent.status] at htail ⊢
      rw [htail, if_neg (fun hc => by omega)]
    | meta dt et d =>
      simp only [Track.runningStatusTail, specRunningStatusTail, MEvent.status] at htail ⊢
      rw [htail, if_neg (fun hc => by omega)]

/-- C4: with running status enabled, `Track.running_status` on a non-empty
list of valid events emits the first event in full, then follows the
specification's accumulator discipline: a subsequent event with the same
status < 240 as its predecessor is emitted as delta time plus payload with
the status byte omitted; every other event (every SysEx and Meta event in
particular) is emitted in full, and the accumulator is updated after every
event, so elision applies only to immediately consecutive equal statuses. -/
theorem c4_running_status_matches_spec (e : MEvent) (es : List MEvent)
    (hv : ∀ x ∈ e :: es, ValidEvent x) :
    Track.running_status (e :: es) = e.to_hex ++ specRunningStatusTail e.status es := by
  have h := runningStatusTail_eq_spec es e.status (fun x hx => hv x (List.mem_cons_of_mem e hx))
  simp only [Track.running_status]
  rw [h]

/-- Witness for C4 at a concrete track: two Note-On events with equal wire
status 153 followed by End of Track. -/
theorem c4_running_status_matches_spec_witness :
    Track.running_status
        [MEvent.midi 0 153 [60, 127], MEvent.midi 5 153 [60, 0], MEvent.meta 0 47 []] =
      (MEvent.midi 0 153 [60, 127]).to_hex ++
        specRunningStatusTail (MEvent.midi 0 153 [60, 127]).status
          [MEvent.midi 5 153 [60, 0], MEvent.meta 0 47 []] :=
  c4_running_status_matches_spec _ _ (by
    intro x hx
    simp only [List.mem_cons, List.not_mem_nil, or_false] at hx
    rcases hx with h | h | h <;> subst h
    · exact Or.inl ⟨0, 144, 9, [60, 127], by decide⟩
    · exact Or.inl ⟨5, 144, 9, [60, 0], by decide⟩
    · exact Or.inr (Or.inr ⟨47, 0, [], by decide⟩))

/-- On any stream that begins with the `MThd` magic, `__read_header` raises
`ValueError`. -/
theorem read_header_rejects_mthd (rest : List Nat) (c : Bool) :
    (MidiParser.read_header ⟨77 :: 84 :: 104 :: 100 :: rest, 0, c⟩).1 =
      .error (.valueError "Wrong format of file") := by
  simp [MidiParser.read_header, PFile.read, mthdBytes]

/-- C1: decoding the serialization of ANY container fails: the serialized
stream begins with the `MThd` magic, and the parser's inverted magic check
raises `ValueError` precisely there, so no serialized container round-trips. -/
theorem c1_parser_rejects_every_serialized_container (m : MidiFormat) :
    (MidiParser.read_all ⟨m.to_hex, 0, false⟩).1 =
      .error (.valueError "Wrong format of file") := by
  obtain ⟨rest, hr⟩ : ∃ rest, m.to_hex = 77 :: 84 :: 104 :: 100 :: rest :=
    ⟨packL 6 ++ packH m.header.file_format ++ packH m.header.ntracks ++ packH m.header.ppqn ++
        (m.tracks.map Track.to_hex).flatten, by
      simp [MidiFormat.to_hex, Header.to_hex, mthdBytes]⟩
  rw [hr]
  rcases hp : MidiParser.read_header ⟨77 :: 84 :: 104 :: 100 :: rest, 0, false⟩ with ⟨exc, f1⟩
  have h1 := read_header_rejects_mthd rest false
  rw [hp] at h1
  simp only at h1
  subst h1
  unfold MidiParser.read_all
  rw [hp]

/-- C9: header validation rejects `(0, 2)` and `(1, 15)`, accepts `(1, 14)`,
and in general, for formats 0, 1, 2, succeeds exactly when the track count is
below 15 and a format-0 file has exactly one track. -/
theorem c9_header_validation :
    (Header.mk' 0 2 96).okB = false ∧ (Header.mk' 1 15 96).okB = false ∧
    (Header.mk' 1 14 96).okB = true ∧
    ∀ file_format ntracks ppqn : Nat, file_format ∈ [0, 1, 2] →
      ((Header.mk' file_format ntracks ppqn).okB = true ↔
        ntracks < 15 ∧ (file_format = 0 → ntracks = 1)) := by
  refine ⟨by decide, by decide, by decide, ?_⟩
  intro ff nt pp hff
  simp only [List.mem_cons, List.not_mem_nil, or_false] at hff
  rcases hff with rfl | rfl | rfl <;>
    (simp only [Header.mk']
     rw [if_neg (by decide)]
     split
     next h1 =>
       simp_all only [Except.okB, Bool.false_eq_true, false_iff, true_and, false_and,
         true_implies, not_and]
       first
       | omega
       | simp
     next h1 =>
       split
       next h2 =>
         simp_all only [Except.okB, Bool.false_eq_true, false_iff, true_and, false_and,
           true_implies, not_and]
         omega
       next h2 =>
         simp_all only [Except.okB, true_iff, true_and, false_and, true_implies, not_and]
         omega)

/-- Witness for C9's general clause at format 1 with 14 tracks. -/
theorem c9_header_validation_witness :
    (Header.mk' 1 14 96).okB = true ↔ 14 < 15 ∧ ((1 : Nat) = 0 → 14 = 1) :=
  c9_header_validation.2.2.2 1 14 96 (by decide)

/-- C10: every successfully constructed channel-voice event stores
`base status + channel`; masking with 240 recovers the base status, masking
with 15 recovers the channel, and `status & 240` always hits a key of
`StatusBytes.midi`. -/
theorem c10_status_nibbles (dt s ch : Nat) (d : List Nat) (e : MEvent)
    (h : MidiEvent.mk' dt s ch d = .ok e) :
    e.status = s + ch ∧ e.status &&& 240 = s ∧ e.status &&& 15 = ch ∧
      (MEvent.get_event_type e).isSome = true := by
  obtain ⟨he, hch, hs⟩ := midi_mk_shape dt s ch d e h
  subst he
  have key : ∀ s ∈ StatusBytes.midiKeys, ∀ ch < 16,
      (s + ch) &&& 240 = s ∧ (s + ch) &&& 15 = ch ∧
        (StatusBytes.midiLookup ((s + ch) &&& 240)).isSome = true := by decide
  obtain ⟨h1, h2, h3⟩ := key s hs ch (by omega)
  exact ⟨rfl, h1, h2, h3⟩

/-- Witness for C10 at a Note On, channel 9. -/
theorem c10_status_nibbles_witness :
    (MEvent.midi 7 153 [60, 127]).status = 144 + 9 ∧
    (MEvent.midi 7 153 [60, 127]).status &&& 240 = 144 ∧
    (MEvent.midi 7 153 [60, 127]).status &&& 15 = 9 ∧
    (MEvent.get_event_type (MEvent.midi 7 153 [60, 127])).isSome = true :=
  c10_status_nibbles 7 144 9 [60, 127] (MEvent.midi 7 153 [60, 127]) (by decide)

/-- C7 amended: when the first four bytes ahead of the position all carry the
continuation bit, `__read_var_len` stops after exactly those four bytes and
returns the accumulated 7-bit groups without raising any error. -/
theorem c7_amended_read_var_len_stops_at_four (b1 b2 b3 b4 : Nat) (rest : List Nat) (c : Bool)
    (h1 : 128 ≤ b1) (h2 : 128 ≤ b2) (h3 : 128 ≤ b3) (h4 : 128 ≤ b4) :
    (MidiParser.read_var_len ⟨b1 :: b2 :: b3 :: b4 :: rest, 0, c⟩).1 =
      .ok (((b1 % 128 * 128 + b2 % 128) * 128 + b3 % 128) * 128 + b4 % 128) := by
  have e1 : ¬ b1 ≤ 127 := by omega
  have e2 : ¬ b2 ≤ 127 := by omega
  have e3 : ¬ b3 ≤ 127 := by omega
  have e4 : ¬ b4 ≤ 127 := by omega
  simp [MidiParser.read_var_len, MidiParser.readVarLenBytes, MidiParser.variable_len,
    PFile.read, e1, e2, e3, e4]

/-- Witness for the amended C7 at four concrete continuation bytes. -/
theorem c7_amended_read_var_len_stops_at_four_witness :
    (MidiParser.read_var_len ⟨[128, 129, 130, 131], 0, false⟩).1 =
      .ok (((128 % 128 * 128 + 129 % 128) * 128 + 130 % 128) * 128 + 131 % 128) :=
  c7_amended_read_var_len_stops_at_four 128 129 130 131 [] false
    (by decide) (by decide) (by decide) (by decide)

/-- C8 amended: event construction bounds the delta time by
4294967167 = 2^32 - 129, not by the largest 4-byte VLQ value 0x0FFFFFFF:
for each variant construction succeeds exactly when
`delta_time ≤ 4294967167` (the other arguments being valid). -/
theorem c8_amended_delta_bound (dt : Nat) :
    ((MidiEvent.mk' dt 144 0 [60, 127]).okB = true ↔ dt ≤ 4294967167) ∧
    ((SysExEvent.mk' dt 240 []).okB = true ↔ dt ≤ 4294967167) ∧
    ((MetaEvent.mk' 47 dt []).okB = true ↔ dt ≤ 4294967167) := by
  by_cases hdt : dt ≤ 4294967167 <;>
    simp [MidiEvent.mk', SysExEvent.mk', MetaEvent.mk', hdt, Except.okB,
      StatusBytes.midiKeys, StatusBytes.midiTable, StatusBytes.sysexKeys,
      StatusBytes.metaKeys, StatusBytes.metaTable]
